import Mathlib

/-!
Verification development for the tap-to-read camera application.

The embedding below follows the frontend source:
* `CameraPreview.tsx` (first variant): the camera acquisition session —
  preflight checks, error classification, startup and blank-preview
  watchdogs, fallback / retry / visibility handlers, tap-to-capture gating,
  and the render (view) function.
* `useTextToSpeech.ts` and `CameraReaderScreen.tsx`: speech-rate clamping.

The `useCamera` / `useCameraPermission` hooks are not part of the provided
sources; the few facts about them the session depends on (acquire is
asynchronous, sets loading while outstanding, sets the active flag on
success and the error value on failure, and retry clears the error) are
modelled from the specification of the Device Handle and are marked as such.
-/

/-- Substring search helper: `leadMatch s pat` is true when `pat` occurs at
the head of `s`. -/
def leadMatch : List Char → List Char → Bool
  | _, [] => true
  | [], _ :: _ => false
  | a :: as, b :: bs => a == b && leadMatch as bs

/-- Substring search over lists of characters. -/
def findSub : List Char → List Char → Bool
  | [], pat => pat.isEmpty
  | s :: rest, pat => leadMatch (s :: rest) pat || findSub rest pat

/-- String containment, embedding the JavaScript `String.prototype.includes`. -/
def strContains (s pat : String) : Bool :=
  findSub s.toList pat.toList

/-- Lower-casing, embedding `String.prototype.toLowerCase` (the messages the
classifier inspects are ASCII). -/
def strLower (s : String) : String :=
  String.mk (s.data.map Char.toLower)

/-- Permission states reported by the permission oracle
(`useCameraPermission`): the browser Permissions API values plus a degraded
unknown mode. -/
inductive PermState
  | granted
  | denied
  | prompt
  | unknown
deriving DecidableEq

/-- Coarse error kinds carried by the camera error value (`error.type` in
`CameraPreview.tsx`). -/
inductive ErrType
  | permission
  | notSupported
  | notFound
  | unknownType
deriving DecidableEq

/-- Camera error value: a kind plus the raw platform message. -/
structure CameraError where
  type : ErrType
  message : String
deriving DecidableEq

/-- Message for a permission-blocked failure (permission refused while the
oracle reports denied). -/
def blockedMsg : String :=
  "Camera access is blocked. Please enable camera permission in your browser settings and tap Retry."

/-- Message for a permission-denied failure under any other permission state. -/
def deniedMsg : String :=
  "Camera access denied. Please allow camera permission and tap Retry."

/-- Message for an unsupported browser. -/
def notSupportedMsg : String :=
  "Camera is not supported in your browser. Please use a modern browser like Chrome, Safari, or Firefox."

/-- Message for a missing camera device. -/
def notFoundMsg : String :=
  "No camera found. Please connect a camera and tap Retry."

/-- Message for a startup timeout signature in the raw message. -/
def timeoutMsg : String :=
  "Camera startup timed out. Please close other apps using the camera and tap Retry."

/-- Message for a busy / in-use signature in the raw message. -/
def inUseMsg : String :=
  "Camera is already in use by another app. Please close other apps using the camera and tap Retry."

/-- Message for a failure with permission granted (stream start failed). -/
def streamFailedMsg : String :=
  "Camera failed to start. Please close other apps using the camera and tap Retry."

/-- Message shown when the preview stays blank after the automatic restart. -/
def blankPreviewMsg : String :=
  "Camera preview is blank. Please close other apps using the camera and tap Retry."

/-- Message for the failed secure-context preflight check. -/
def httpsRequiredMsg : String :=
  "Camera requires HTTPS. Please access this app over a secure connection."

/-- Error classifier `getUserFriendlyErrorMessage` from `CameraPreview.tsx`
(lines 60-95): maps the camera error and the current permission state to the
user-facing message. -/
def getUserFriendlyErrorMessage (cameraError : Option CameraError)
    (permissionState : PermState) : String :=
  match cameraError with
  | none => ""
  | some e =>
    match e.type with
    | ErrType.permission =>
        if permissionState = PermState.denied then blockedMsg else deniedMsg
    | ErrType.notSupported => notSupportedMsg
    | ErrType.notFound => notFoundMsg
    | ErrType.unknownType =>
        let msg := strLower e.message
        if strContains msg "timeout" then timeoutMsg
        else if strContains msg "in use" || strContains msg "notreadable" then inUseMsg
        else if strContains msg "permission" || strContains msg "denied" then
          (if permissionState = PermState.denied then blockedMsg else deniedMsg)
        else if permissionState = PermState.granted then streamFailedMsg
        else "Camera error: " ++ e.message ++ ". Please tap Retry."

/-- Speech rate setter from `useTextToSpeech.ts` (lines 94-97):
`Math.max(0.5, Math.min(2.0, newRate))`.  All values the application ever
computes are quarter-integers, which are exact in the platform float type,
so the rationals model the arithmetic faithfully. -/
def setRate (newRate : ℚ) : ℚ :=
  max (1/2) (min 2 newRate)

/-- Initial speech rate (`useState(1.0)` in `useTextToSpeech.ts`). -/
def initialRate : ℚ := 1

/-- Speed-up handler from `CameraReaderScreen.tsx` (lines 74-78):
`Math.min(rate + 0.25, 2.0)` passed through `setRate`. -/
def handleIncreaseRate (rate : ℚ) : ℚ :=
  setRate (min (rate + 1/4) 2)

/-- Slow-down handler from `CameraReaderScreen.tsx` (lines 80-84):
`Math.max(rate - 0.25, 0.5)` passed through `setRate`. -/
def handleDecreaseRate (rate : ℚ) : ℚ :=
  setRate (max (rate - 1/4) (1/2))

/-- Calls the tap-to-capture handler can make. -/
inductive CapAct
  | capturePhotoCall
  | onCaptureCall
deriving DecidableEq

/-- Captured image payload (opaque to the session logic). -/
abbrev ImageFile := List Nat

/-- Tap-to-capture handler from `CameraPreview.tsx` (lines 299-306): the tap
is gated on the camera being active, no OCR processing in progress, and the
video actually rendering frames; `onCapture` runs only when `capturePhoto`
produced a photo. -/
def handleTapToCapture (isActive isProcessing isVideoRendering : Bool)
    (photo : Option ImageFile) : List CapAct :=
  if isActive = false ∨ isProcessing = true ∨ isVideoRendering = false then []
  else
    CapAct.capturePhotoCall ::
      (match photo with
       | some _ => [CapAct.onCaptureCall]
       | none => [])

/-- Key handler from `CameraPreview.tsx` (lines 308-313): Enter and Space
activate the tap-to-capture path, other keys do nothing. -/
def handleKeyDown (key : String) (isActive isProcessing isVideoRendering : Bool)
    (photo : Option ImageFile) : List CapAct :=
  if key = "Enter" ∨ key = " " then
    handleTapToCapture isActive isProcessing isVideoRendering photo
  else []

/-- Kinds of outstanding acquisition calls, identified by the continuation
that runs when the call settles: `startCont` for `attemptStart`
(`CameraPreview.tsx` lines 118-132), `retryCont` for `handleRetry`
(lines 143-151), `blankCont` for the blank-watchdog restart (lines 237-245). -/
inductive PendKind
  | startCont
  | retryCont
  | blankCont
deriving DecidableEq

/-- Session state of the `CameraPreview` component: the React state values,
the refs, the armed timers with the values their callbacks captured, the
effect-dependency snapshots that decide whether an effect re-runs, and the
`useCamera` / environment facts the component reads.  The list `pending`
records the acquisition calls currently outstanding. -/
structure CState where
  showFallback : Bool
  userFriendlyError : String
  isVideoRendering : Bool
  hasAttemptedStart : Bool
  isStarting : Bool
  hasShownFallback : Bool
  hasAttemptedRestart : Bool
  startupTimer : Option (Bool × Option CameraError)
  blankTimer : Option (Bool × Bool)
  videoListeners : Bool
  isActive : Bool
  error : Option CameraError
  isLoading : Bool
  isSupported : Option Bool
  pending : List PendKind
  permissionState : PermState
  eff2Prev : Option (Bool × Option CameraError)
  eff3Prev : Option (Bool × Bool)
  eff5Prev : Option (Option CameraError × PermState)
  restartsThisAttempt : Nat
  secureContext : Bool
  apiAvailable : Bool
deriving DecidableEq

/-- Mutually exclusive views the render function can produce
(`CameraPreview.tsx` lines 315-435). -/
inductive View
  | notSupportedView
  | httpsRequired
  | errorRetry
  | fallback
  | loading
  | active
deriving DecidableEq

/-- Render function of `CameraPreview.tsx` (lines 315-435): the chain of
early returns selecting which view is shown. -/
def view (s : CState) : View :=
  if s.isSupported = some false ∨
     (s.userFriendlyError ≠ "" ∧ strContains s.userFriendlyError "not supported" = true) then
    View.notSupportedView
  else if s.userFriendlyError ≠ "" ∧ strContains s.userFriendlyError "HTTPS" = true then
    View.httpsRequired
  else if s.error ≠ none ∨ s.userFriendlyError ≠ "" then
    View.errorRetry
  else if s.showFallback = true ∨
          (s.hasAttemptedStart = true ∧ s.isActive = false ∧ s.error = none ∧
           s.isLoading = false ∧ s.isStarting = false ∧ s.hasShownFallback = true) then
    View.fallback
  else if s.isLoading = true ∨ s.isActive = false ∨ s.isStarting = true then
    View.loading
  else
    View.active

/-- Startup-watchdog effect (`CameraPreview.tsx` lines 172-197), dependency
array `[isActive, error, onStatusChange]`.  When the dependencies changed the
previous timer is cleared (cleanup plus the explicit clear at line 177) and,
if the arming condition holds, a new timer is armed capturing the current
`isActive` and `error` closure values. -/
def runEff2 (s : CState) : CState :=
  if s.eff2Prev = some (s.isActive, s.error) then s
  else
    let s1 : CState := {s with startupTimer := none}
    let s2 : CState :=
      if s1.hasAttemptedStart = true ∧ s1.isActive = false ∧ s1.error = none ∧
         s1.hasShownFallback = false ∧ s1.isStarting = false then
        {s1 with startupTimer := some (s1.isActive, s1.error)}
      else s1
    {s2 with eff2Prev := some (s.isActive, s.error)}

/-- Blank-preview watchdog effect (`CameraPreview.tsx` lines 199-263),
dependency array `[isActive, videoRef, isVideoRendering, retry,
onStatusChange]`.  The video element only exists while the active preview is
rendered, so the `videoRef.current` test is the `view = active` condition.
When the dependencies changed the listeners are detached and the previous
timer cleared; if the arming condition holds, frame listeners are attached
and a new timer armed capturing `isVideoRendering` and `isActive`. -/
def runEff3 (s : CState) : CState :=
  if s.eff3Prev = some (s.isActive, s.isVideoRendering) then s
  else
    let s1 : CState := {s with videoListeners := false, blankTimer := none}
    let s2 : CState :=
      if s1.isActive = true ∧ s1.isVideoRendering = false ∧ view s1 = View.active then
        {s1 with videoListeners := true,
                 blankTimer := some (s1.isVideoRendering, s1.isActive)}
      else s1
    {s2 with eff3Prev := some (s.isActive, s.isVideoRendering)}

/-- Error effect (`CameraPreview.tsx` lines 280-297): when the error value
(or the classifier, which depends on the permission state) changed, the
classified message is stored, the in-flight guard is dropped and both
watchdog timers are cleared. -/
def runEff5 (s : CState) : CState :=
  if s.eff5Prev = some (s.error, s.permissionState) then s
  else
    let s1 : CState :=
      match s.error with
      | some e =>
        {s with userFriendlyError := getUserFriendlyErrorMessage (some e) s.permissionState,
                isStarting := false, startupTimer := none, blankTimer := none}
      | none => s
    {s1 with eff5Prev := some (s.error, s.permissionState)}

/-- One render-and-effects pass: the effects whose dependencies changed run
in declaration order.  Effect bodies do not change any dependency, so a
single pass reaches the fixpoint. -/
def flushOnce (s : CState) : CState :=
  runEff5 (runEff3 (runEff2 s))

/-- Modelled from the spec: the Device Handle / `useCamera` hook is not in
the provided sources.  Issuing an acquisition (both `startCamera` and
`retry`) enters the loading state, clears the previous error and leaves no
active stream until the call settles; the call itself stays outstanding in
`pending`. -/
def issueAcquire (s : CState) (k : PendKind) : CState :=
  {s with pending := s.pending ++ [k], error := none, isLoading := true,
          isActive := false}

/-- The synchronous prefix of `attemptStart` (`CameraPreview.tsx` lines
98-117): the single-flight guard, the preflight checks, the per-attempt
resets and the issue of the acquisition call.  Returns the list of
acquisition calls issued. -/
def attemptStartCall (s : CState) : CState × List PendKind :=
  if s.isStarting = true then (s, [])
  else if s.secureContext = false then
    ({s with userFriendlyError := httpsRequiredMsg}, [])
  else if s.apiAvailable = false then
    ({s with userFriendlyError := notSupportedMsg}, [])
  else
    let s1 : CState :=
      {s with isStarting := true, hasAttemptedStart := true, showFallback := false,
              userFriendlyError := "", hasShownFallback := false,
              hasAttemptedRestart := false, restartsThisAttempt := 0,
              isVideoRendering := false}
    (issueAcquire s1 PendKind.startCont, [PendKind.startCont])

/-- Continuation run when an outstanding acquisition call settles:
`attemptStart` lines 119-132, `handleRetry` lines 143-151, and the blank
restart `.then` at lines 237-245. -/
def resolveCont (k : PendKind) (success : Bool) (s : CState) : CState :=
  match k with
  | PendKind.startCont =>
    let s1 : CState := {s with isStarting := false}
    if success then {s1 with startupTimer := none} else s1
  | PendKind.retryCont =>
    if success then {s with startupTimer := none} else s
  | PendKind.blankCont =>
    if success then s else {s with userFriendlyError := blankPreviewMsg}

/-- Events the environment can deliver to the session. -/
inductive Ev
  | resolve (i : Nat) (success : Bool) (err : CameraError)
  | startupFire
  | blankFire
  | frameRendered (w h ready : Nat)
  | visHidden
  | visVisible
  | tapFallback
  | tapRetry
  | permChange (ps : PermState)

/-- Small-step semantics of the session: each event runs the corresponding
handler (with its enabling condition) followed by a render-and-effects pass.
The returned list records the acquisition calls issued by the event; `none`
means the event is not enabled in this state.  The `useCamera` resolution
behaviour (active flag, error value, loading flag) is modelled from the
spec, as is the clearing of the error when a new acquisition is issued. -/
def stepE (s : CState) (ev : Ev) : Option (CState × List PendKind) :=
  match ev with
  | Ev.resolve i success err =>
    match s.pending.get? i with
    | none => none
    | some k =>
      let s1 : CState := {s with pending := s.pending.eraseIdx i}
      let s2 : CState :=
        if success then {s1 with isActive := true, isLoading := false, error := none}
        else {s1 with isActive := false, isLoading := false, error := some err}
      some (flushOnce (resolveCont k success s2), [])
  | Ev.startupFire =>
    match s.startupTimer with
    | none => none
    | some cap =>
      let s1 : CState := {s with startupTimer := none}
      let s2 : CState :=
        if cap.1 = false ∧ cap.2 = none ∧ s1.hasShownFallback = false then
          {s1 with showFallback := true, hasShownFallback := true, isStarting := false}
        else s1
      some (flushOnce s2, [])
  | Ev.blankFire =>
    match s.blankTimer with
    | none => none
    | some cap =>
      let s1 : CState := {s with blankTimer := none}
      if cap.1 = false ∧ cap.2 = true then
        if s1.hasAttemptedRestart = false then
          let s2 : CState :=
            {s1 with hasAttemptedRestart := true,
                     restartsThisAttempt := s1.restartsThisAttempt + 1}
          some (flushOnce (issueAcquire s2 PendKind.blankCont), [PendKind.blankCont])
        else
          some (flushOnce {s1 with userFriendlyError := blankPreviewMsg}, [])
      else some (flushOnce s1, [])
  | Ev.frameRendered w h ready =>
    if s.videoListeners = true then
      if 0 < w ∧ 0 < h ∧ 2 ≤ ready then
        some (flushOnce {s with isVideoRendering := true, blankTimer := none}, [])
      else some (s, [])
    else none
  | Ev.visHidden => some (s, [])
  | Ev.visVisible =>
    if s.hasAttemptedStart = true ∧ s.isActive = false ∧ s.error = none ∧
       s.isStarting = false then
      let r := attemptStartCall s
      some (flushOnce r.1, r.2)
    else some (s, [])
  | Ev.tapFallback =>
    if view s = View.fallback ∧ s.isLoading = false then
      let s1 : CState :=
        {s with showFallback := false, hasShownFallback := false, isStarting := false,
                hasAttemptedRestart := false, restartsThisAttempt := 0,
                isVideoRendering := false}
      let r := attemptStartCall s1
      some (flushOnce r.1, r.2)
    else none
  | Ev.tapRetry =>
    if view s = View.errorRetry ∧ s.isLoading = false then
      let s1 : CState :=
        {s with userFriendlyError := "", isStarting := false,
                hasAttemptedRestart := false, restartsThisAttempt := 0,
                isVideoRendering := false}
      some (flushOnce (issueAcquire s1 PendKind.retryCont), [PendKind.retryCont])
    else none
  | Ev.permChange ps => some (flushOnce {s with permissionState := ps}, [])

/-- Run a list of events from a state. -/
def run (s : CState) : List Ev → Option CState
  | [] => some s
  | ev :: rest =>
    match stepE s ev with
    | none => none
    | some r => run r.1 rest

/-- State of the component before the mount effects run. -/
def initState : CState where
  showFallback := false
  userFriendlyError := ""
  isVideoRendering := false
  hasAttemptedStart := false
  isStarting := false
  hasShownFallback := false
  hasAttemptedRestart := false
  startupTimer := none
  blankTimer := none
  videoListeners := false
  isActive := false
  error := none
  isLoading := false
  isSupported := some true
  pending := []
  permissionState := PermState.unknown
  eff2Prev := none
  eff3Prev := none
  eff5Prev := none
  restartsThisAttempt := 0
  secureContext := true
  apiAvailable := true

/-- State right after mount: the initial-startup effect (`CameraPreview.tsx`
lines 165-170) calls `attemptStart`, whose synchronous prefix runs before the
remaining mount effects (declared later in the file) execute their first
pass. -/
def initMounted : CState :=
  flushOnce (attemptStartCall initState).1

/-- A state is flushed when a render-and-effects pass leaves it unchanged;
every state produced by a step is flushed. -/
def Flushed (s : CState) : Prop :=
  flushOnce s = s

/-- Error text shown by the error view (`CameraPreview.tsx` line 350):
the classified message when present, otherwise the raw message. -/
def displayedError (s : CState) : String :=
  if s.userFriendlyError = "" then
    (match s.error with
     | some e => e.message
     | none => "")
  else s.userFriendlyError

/-- Classifier output is never the empty string. -/
theorem classify_ne_empty (e : CameraError) (ps : PermState) :
    getUserFriendlyErrorMessage (some e) ps ≠ "" := by
  obtain ⟨t, m⟩ := e
  cases t <;> unfold getUserFriendlyErrorMessage <;> dsimp only
  case permission => split <;> decide
  case notSupported => decide
  case notFound => decide
  case unknownType =>
    repeat' split
    any_goals decide
    intro h
    have h2 := congrArg String.length h
    simp [String.length_append] at h2
    exact absurd h2.1.1 (by decide)

/-- The startup-watchdog effect only changes the startup timer and its own
dependency snapshot. -/
theorem runEff2_untouched (s : CState) :
    (runEff2 s).showFallback = s.showFallback ∧
    (runEff2 s).userFriendlyError = s.userFriendlyError ∧
    (runEff2 s).isVideoRendering = s.isVideoRendering ∧
    (runEff2 s).hasAttemptedStart = s.hasAttemptedStart ∧
    (runEff2 s).isStarting = s.isStarting ∧
    (runEff2 s).hasShownFallback = s.hasShownFallback ∧
    (runEff2 s).hasAttemptedRestart = s.hasAttemptedRestart ∧
    (runEff2 s).blankTimer = s.blankTimer ∧
    (runEff2 s).videoListeners = s.videoListeners ∧
    (runEff2 s).isActive = s.isActive ∧
    (runEff2 s).error = s.error ∧
    (runEff2 s).isLoading = s.isLoading ∧
    (runEff2 s).isSupported = s.isSupported ∧
    (runEff2 s).pending = s.pending ∧
    (runEff2 s).permissionState = s.permissionState ∧
    (runEff2 s).eff3Prev = s.eff3Prev ∧
    (runEff2 s).eff5Prev = s.eff5Prev ∧
    (runEff2 s).restartsThisAttempt = s.restartsThisAttempt := by
  unfold runEff2
  repeat' split <;> simp

/-- The blank-watchdog effect only changes the blank timer, the listeners
flag and its own dependency snapshot. -/
theorem runEff3_untouched (s : CState) :
    (runEff3 s).showFallback = s.showFallback ∧
    (runEff3 s).userFriendlyError = s.userFriendlyError ∧
    (runEff3 s).isVideoRendering = s.isVideoRendering ∧
    (runEff3 s).hasAttemptedStart = s.hasAttemptedStart ∧
    (runEff3 s).isStarting = s.isStarting ∧
    (runEff3 s).hasShownFallback = s.hasShownFallback ∧
    (runEff3 s).hasAttemptedRestart = s.hasAttemptedRestart ∧
    (runEff3 s).startupTimer = s.startupTimer ∧
    (runEff3 s).isActive = s.isActive ∧
    (runEff3 s).error = s.error ∧
    (runEff3 s).isLoading = s.isLoading ∧
    (runEff3 s).isSupported = s.isSupported ∧
    (runEff3 s).pending = s.pending ∧
    (runEff3 s).permissionState = s.permissionState ∧
    (runEff3 s).eff2Prev = s.eff2Prev ∧
    (runEff3 s).eff5Prev = s.eff5Prev ∧
    (runEff3 s).restartsThisAttempt = s.restartsThisAttempt := by
  unfold runEff3
  repeat' split <;> simp

/-- The error effect only changes the message, the in-flight guard, the two
timers and its own dependency snapshot. -/
theorem runEff5_untouched (s : CState) :
    (runEff5 s).showFallback = s.showFallback ∧
    (runEff5 s).isVideoRendering = s.isVideoRendering ∧
    (runEff5 s).hasAttemptedStart = s.hasAttemptedStart ∧
    (runEff5 s).hasShownFallback = s.hasShownFallback ∧
    (runEff5 s).hasAttemptedRestart = s.hasAttemptedRestart ∧
    (runEff5 s).videoListeners = s.videoListeners ∧
    (runEff5 s).isActive = s.isActive ∧
    (runEff5 s).error = s.error ∧
    (runEff5 s).isLoading = s.isLoading ∧
    (runEff5 s).isSupported = s.isSupported ∧
    (runEff5 s).pending = s.pending ∧
    (runEff5 s).permissionState = s.permissionState ∧
    (runEff5 s).eff2Prev = s.eff2Prev ∧
    (runEff5 s).eff3Prev = s.eff3Prev ∧
    (runEff5 s).restartsThisAttempt = s.restartsThisAttempt := by
  unfold runEff5
  repeat' split <;> simp

/-- Fields a render-and-effects pass never changes. -/
theorem flushOnce_untouched (s : CState) :
    (flushOnce s).showFallback = s.showFallback ∧
    (flushOnce s).isVideoRendering = s.isVideoRendering ∧
    (flushOnce s).hasAttemptedStart = s.hasAttemptedStart ∧
    (flushOnce s).hasShownFallback = s.hasShownFallback ∧
    (flushOnce s).hasAttemptedRestart = s.hasAttemptedRestart ∧
    (flushOnce s).isActive = s.isActive ∧
    (flushOnce s).error = s.error ∧
    (flushOnce s).isLoading = s.isLoading ∧
    (flushOnce s).isSupported = s.isSupported ∧
    (flushOnce s).pending = s.pending ∧
    (flushOnce s).permissionState = s.permissionState ∧
    (flushOnce s).restartsThisAttempt = s.restartsThisAttempt := by
  unfold flushOnce
  have h2 := runEff2_untouched s
  have h3 := runEff3_untouched (runEff2 s)
  have h5 := runEff5_untouched (runEff3 (runEff2 s))
  refine ⟨?_, ?_, ?_, ?_, ?_, ?_, ?_, ?_, ?_, ?_, ?_, ?_⟩ <;>
    simp_all

/-- The view is determined by the fields the render function reads. -/
theorem view_congr (s t : CState)
    (h1 : t.isSupported = s.isSupported)
    (h2 : t.userFriendlyError = s.userFriendlyError)
    (h3 : t.error = s.error)
    (h4 : t.showFallback = s.showFallback)
    (h5 : t.hasAttemptedStart = s.hasAttemptedStart)
    (h6 : t.isActive = s.isActive)
    (h7 : t.isLoading = s.isLoading)
    (h8 : t.isStarting = s.isStarting)
    (h9 : t.hasShownFallback = s.hasShownFallback) :
    view t = view s := by
  unfold view
  rw [h1, h2, h3, h4, h5, h6, h7, h8, h9]

/-- The view does not depend on the timers or the effect snapshots. -/
theorem view_runEff2 (s : CState) : view (runEff2 s) = view s := by
  have h := runEff2_untouched s
  exact view_congr s (runEff2 s) h.2.2.2.2.2.2.2.2.2.2.2.2.1 h.2.1 h.2.2.2.2.2.2.2.2.2.2.1
    h.1 h.2.2.2.1 h.2.2.2.2.2.2.2.2.2.1 h.2.2.2.2.2.2.2.2.2.2.2.1 h.2.2.2.2.1 h.2.2.2.2.2.1

/-- A state whose view is the fallback view has no error and no message. -/
theorem view_fallback_clean (s : CState) (h : view s = View.fallback) :
    s.error = none ∧ s.userFriendlyError = "" := by
  unfold view at h
  repeat' split at h
  any_goals cases h
  rename_i h1 h2 h3 _
  constructor
  · by_contra hc
    exact h3 (Or.inl hc)
  · by_contra hc
    exact h3 (Or.inr hc)

/-- A state whose view is the active preview has no error and no message. -/
theorem view_active_clean (s : CState) (h : view s = View.active) :
    s.error = none ∧ s.userFriendlyError = "" := by
  unfold view at h
  repeat' split at h
  any_goals cases h
  rename_i h1 h2 h3 _ _
  constructor
  · by_contra hc
    exact h3 (Or.inl hc)
  · by_contra hc
    exact h3 (Or.inr hc)

/-- States with an error present never render the active preview. -/
theorem view_ne_active_of_error (s : CState) (e : CameraError)
    (h : s.error = some e) : view s ≠ View.active := by
  intro hv
  have hc := view_active_clean s hv
  rw [h] at hc
  cases hc.1

/-- Case analysis of the blank-watchdog effect on the blank timer: it keeps
the timer, clears it, or arms it afresh — the latter only while the active
preview is rendered. -/
theorem runEff3_blankTimer (s : CState) :
    (runEff3 s).blankTimer = s.blankTimer ∨ (runEff3 s).blankTimer = none
    ∨ (view s = View.active ∧ (runEff3 s).blankTimer = some (false, true)) := by
  unfold runEff3
  split
  · left; rfl
  · dsimp only
    split
    · rename_i hc
      right; right
      refine ⟨?_, ?_⟩
      · have hv : view {s with videoListeners := false, blankTimer := none} = view s :=
          view_congr s _ rfl rfl rfl rfl rfl rfl rfl rfl rfl
        rw [← hv]
        exact hc.2.2
      · simp
        exact ⟨hc.2.1, hc.1⟩
    · right; left; rfl

/-- Case analysis of the error effect. -/
theorem runEff5_cases (s : CState) :
    (s.eff5Prev = some (s.error, s.permissionState) ∧ runEff5 s = s)
    ∨ (s.error = none ∧
        runEff5 s = {s with eff5Prev := some (s.error, s.permissionState)})
    ∨ (∃ e, s.error = some e ∧
        runEff5 s =
          {s with userFriendlyError := getUserFriendlyErrorMessage (some e) s.permissionState,
                  isStarting := false, startupTimer := none, blankTimer := none,
                  eff5Prev := some (s.error, s.permissionState)}) := by
  unfold runEff5
  split
  · left; exact ⟨by assumption, rfl⟩
  · cases herr : s.error with
    | none =>
      right; left
      refine ⟨rfl, ?_⟩
      simp only [herr]
    | some e =>
      right; right
      refine ⟨e, rfl, ?_⟩
      simp only [herr]

/-- After a render-and-effects pass the error-effect snapshot matches the
current error and permission state. -/
theorem flushOnce_eff5Prev (s : CState) :
    (flushOnce s).eff5Prev = some (s.error, s.permissionState) := by
  obtain ⟨-, -, -, -, -, -, -, -, -, -, he2, -, -, -, hp2, -, -, -⟩ := runEff2_untouched s
  obtain ⟨-, -, -, -, -, -, -, -, -, he3, -, -, -, hp3, -, -, -⟩ :=
    runEff3_untouched (runEff2 s)
  have hm : (runEff3 (runEff2 s)).error = s.error := he3.trans he2
  have hp : (runEff3 (runEff2 s)).permissionState = s.permissionState := hp3.trans hp2
  show (runEff5 (runEff3 (runEff2 s))).eff5Prev = some (s.error, s.permissionState)
  rcases runEff5_cases (runEff3 (runEff2 s)) with ⟨hmatch, heq⟩ | ⟨_, heq⟩ | ⟨e, _, heq⟩
  · rw [heq, ← hm, ← hp]
    exact hmatch
  · rw [heq, ← hm, ← hp]
  · rw [heq, ← hm, ← hp]

/-- A render-and-effects pass on a state with no error does not change the
message. -/
theorem flushOnce_ufe_of_error_none (m : CState) (he : m.error = none) :
    (flushOnce m).userFriendlyError = m.userFriendlyError := by
  obtain ⟨-, hufe2, -, -, -, -, -, -, -, -, herr2, -, -, -, -, -, -, -⟩ := runEff2_untouched m
  obtain ⟨-, hufe3, -, -, -, -, -, -, -, herr3, -, -, -, -, -, -, -⟩ :=
    runEff3_untouched (runEff2 m)
  have herr : (runEff3 (runEff2 m)).error = m.error := herr3.trans herr2
  have hufe : (runEff3 (runEff2 m)).userFriendlyError = m.userFriendlyError :=
    hufe3.trans hufe2
  rcases runEff5_cases (runEff3 (runEff2 m)) with ⟨-, heq⟩ | ⟨-, heq⟩ | ⟨e2, hsome, -⟩
  · show (runEff5 (runEff3 (runEff2 m))).userFriendlyError = m.userFriendlyError
    rw [heq]; exact hufe
  · show (runEff5 (runEff3 (runEff2 m))).userFriendlyError = m.userFriendlyError
    rw [heq]; exact hufe
  · rw [herr, he] at hsome
    cases hsome

/-- A render-and-effects pass on a state carrying an error either
re-classifies the message (when the error effect re-runs) or leaves the
message alone (when the dependency snapshot matches); the blank timer is
never armed in either case. -/
theorem flushOnce_err (m : CState) (e : CameraError) (he : m.error = some e) :
    ((flushOnce m).userFriendlyError =
        getUserFriendlyErrorMessage (some e) m.permissionState
      ∧ (flushOnce m).blankTimer = none)
    ∨ (m.eff5Prev = some (m.error, m.permissionState)
      ∧ (flushOnce m).userFriendlyError = m.userFriendlyError
      ∧ ((flushOnce m).blankTimer = m.blankTimer ∨ (flushOnce m).blankTimer = none)) := by
  obtain ⟨-, hufe2, -, -, -, -, -, hbt2, -, -, herr2, -, -, -, hperm2, -, hq2, -⟩ :=
    runEff2_untouched m
  obtain ⟨-, hufe3, -, -, -, -, -, -, -, herr3, -, -, -, hperm3, -, hq3, -⟩ :=
    runEff3_untouched (runEff2 m)
  have herr : (runEff3 (runEff2 m)).error = m.error := herr3.trans herr2
  have hperm : (runEff3 (runEff2 m)).permissionState = m.permissionState :=
    hperm3.trans hperm2
  have hufe : (runEff3 (runEff2 m)).userFriendlyError = m.userFriendlyError :=
    hufe3.trans hufe2
  have hq : (runEff3 (runEff2 m)).eff5Prev = m.eff5Prev := hq3.trans hq2
  have hbt : (runEff3 (runEff2 m)).blankTimer = m.blankTimer
      ∨ (runEff3 (runEff2 m)).blankTimer = none := by
    rcases runEff3_blankTimer (runEff2 m) with h | h | ⟨hv, -⟩
    · left; exact h.trans hbt2
    · right; exact h
    · exfalso
      rw [view_runEff2] at hv
      exact view_ne_active_of_error m e he hv
  rcases runEff5_cases (runEff3 (runEff2 m)) with ⟨hmatch, heq⟩ | ⟨hnone, -⟩ | ⟨e2, hsome, heq⟩
  · right
    rw [hq, herr, hperm] at hmatch
    refine ⟨hmatch, ?_, ?_⟩
    · show (runEff5 (runEff3 (runEff2 m))).userFriendlyError = m.userFriendlyError
      rw [heq]; exact hufe
    · show (runEff5 (runEff3 (runEff2 m))).blankTimer = m.blankTimer
        ∨ (runEff5 (runEff3 (runEff2 m))).blankTimer = none
      rw [heq]; exact hbt
  · rw [herr, he] at hnone
    cases hnone
  · left
    rw [herr, he] at hsome
    have hee : e = e2 := by injection hsome
    subst hee
    constructor
    · show (runEff5 (runEff3 (runEff2 m))).userFriendlyError = _
      rw [heq, hperm]
    · show (runEff5 (runEff3 (runEff2 m))).blankTimer = none
      rw [heq]

/-- Invariant maintained by every reachable state of the session model:
the automatic-restart counter is bounded by the restart flag, the message
shown alongside an error is the classified message or the fixed
blank-preview message (never empty), and the error-effect snapshot matches
the current error and permission state. -/
def InvP (s : CState) : Prop :=
  s.restartsThisAttempt ≤ (if s.hasAttemptedRestart = true then 1 else 0)
  ∧ (∀ e, s.error = some e →
      (s.userFriendlyError = getUserFriendlyErrorMessage (some e) s.permissionState
        ∨ s.userFriendlyError = blankPreviewMsg)
      ∧ s.userFriendlyError ≠ ""
      ∧ s.blankTimer = none)
  ∧ s.eff5Prev = some (s.error, s.permissionState)

/-- A render-and-effects pass establishes the invariant provided the
incoming state satisfies the counter bound and either carries a correct
message or is about to be re-classified. -/
theorem invP_flush (m : CState)
    (hA : m.restartsThisAttempt ≤ (if m.hasAttemptedRestart = true then 1 else 0))
    (hB : ∀ e, m.error = some e →
        ((m.userFriendlyError = getUserFriendlyErrorMessage (some e) m.permissionState
          ∨ m.userFriendlyError = blankPreviewMsg)
         ∧ m.userFriendlyError ≠ "" ∧ m.blankTimer = none)
        ∨ m.eff5Prev ≠ some (m.error, m.permissionState)) :
    InvP (flushOnce m) := by
  obtain ⟨-, -, -, -, hflag, -, herr, -, -, -, hperm, hcount⟩ := flushOnce_untouched m
  refine ⟨?_, ?_, ?_⟩
  · rw [hcount, hflag]; exact hA
  · intro e he
    rw [herr] at he
    rcases flushOnce_err m e he with ⟨hufe, hbt⟩ | ⟨hprev, hufe, hbt⟩
    · refine ⟨Or.inl ?_, ?_, hbt⟩
      · rw [hufe, hperm]
      · rw [hufe]
        exact classify_ne_empty e m.permissionState
    · rcases hB e he with ⟨hd, hne, hbtm⟩ | hcontra
      · refine ⟨?_, ?_, ?_⟩
        · rw [hufe, hperm]; exact hd
        · rw [hufe]; exact hne
        · rcases hbt with h | h
          · rw [h, hbtm]
          · rw [h]
      · exact absurd hprev hcontra
  · rw [herr, hperm]
    exact flushOnce_eff5Prev m

/-- Case analysis of the synchronous prefix of `attemptStart`: guarded
no-op, one of the two preflight failures, or a fresh issue of the
acquisition call. -/
theorem attemptStartCall_cases (s : CState) :
    (s.isStarting = true ∧ attemptStartCall s = (s, []))
    ∨ (s.isStarting = false ∧ s.secureContext = false ∧
        attemptStartCall s = ({s with userFriendlyError := httpsRequiredMsg}, []))
    ∨ (s.isStarting = false ∧ s.secureContext = true ∧ s.apiAvailable = false ∧
        attemptStartCall s = ({s with userFriendlyError := notSupportedMsg}, []))
    ∨ (s.isStarting = false ∧ s.secureContext = true ∧ s.apiAvailable = true ∧
        attemptStartCall s =
          (issueAcquire
            {s with isStarting := true, hasAttemptedStart := true,
                    showFallback := false, userFriendlyError := "",
                    hasShownFallback := false, hasAttemptedRestart := false,
                    restartsThisAttempt := 0, isVideoRendering := false}
            PendKind.startCont, [PendKind.startCont])) := by
  unfold attemptStartCall
  split
  · left; exact ⟨by assumption, rfl⟩
  · rename_i hst
    have hst' : s.isStarting = false := by
      cases hx : s.isStarting
      · rfl
      · exact absurd hx hst
    split
    · right; left; exact ⟨hst', by assumption, rfl⟩
    · rename_i hsc
      have hsc' : s.secureContext = true := by
        cases hx : s.secureContext
        · exact absurd hx hsc
        · rfl
      split
      · right; right; left; exact ⟨hst', hsc', by assumption, rfl⟩
      · rename_i hap
        have hap' : s.apiAvailable = true := by
          cases hx : s.apiAvailable
          · exact absurd hx hap
          · rfl
        right; right; right; exact ⟨hst', hsc', hap', rfl⟩

/-- Every enabled step of the session preserves the invariant. -/
theorem invP_step (s : CState) (ev : Ev) (r : CState × List PendKind)
    (hs : InvP s) (h : stepE s ev = some r) : InvP r.1 := by
  obtain ⟨hA, hB, hD⟩ := hs
  cases ev with
  | resolve i success err =>
    simp only [stepE] at h
    split at h
    · exact Option.noConfusion h
    · rename_i k hget
      have hr := Option.some.inj h
      subst hr
      cases k <;> cases success
      case startCont.false =>
        refine invP_flush _ hA ?_
        intro e he
        have he' : (some err : Option CameraError) = some e := he
        obtain rfl : err = e := Option.some.inj he'
        by_cases hsq : s.error = some err
        · obtain ⟨hd, hne, hbt⟩ := hB err hsq
          exact Or.inl ⟨hd, hne, hbt⟩
        · refine Or.inr ?_
          intro hcc
          have hcc' : s.eff5Prev = some (some err, s.permissionState) := hcc
          rw [hD] at hcc'
          exact hsq (congrArg Prod.fst (Option.some.inj hcc'))
      case startCont.true =>
        exact invP_flush _ hA (fun e he => Option.noConfusion he)
      case retryCont.false =>
        refine invP_flush _ hA ?_
        intro e he
        have he' : (some err : Option CameraError) = some e := he
        obtain rfl : err = e := Option.some.inj he'
        by_cases hsq : s.error = some err
        · obtain ⟨hd, hne, hbt⟩ := hB err hsq
          exact Or.inl ⟨hd, hne, hbt⟩
        · refine Or.inr ?_
          intro hcc
          have hcc' : s.eff5Prev = some (some err, s.permissionState) := hcc
          rw [hD] at hcc'
          exact hsq (congrArg Prod.fst (Option.some.inj hcc'))
      case retryCont.true =>
        exact invP_flush _ hA (fun e he => Option.noConfusion he)
      case blankCont.false =>
        refine invP_flush _ hA ?_
        intro e he
        have he' : (some err : Option CameraError) = some e := he
        obtain rfl : err = e := Option.some.inj he'
        by_cases hsq : s.error = some err
        · obtain ⟨-, -, hbt⟩ := hB err hsq
          have hne2 : blankPreviewMsg ≠ "" := by decide
          exact Or.inl ⟨Or.inr rfl, hne2, hbt⟩
        · refine Or.inr ?_
          intro hcc
          have hcc' : s.eff5Prev = some (some err, s.permissionState) := hcc
          rw [hD] at hcc'
          exact hsq (congrArg Prod.fst (Option.some.inj hcc'))
      case blankCont.true =>
        exact invP_flush _ hA (fun e he => Option.noConfusion he)
  | startupFire =>
    simp only [stepE] at h
    split at h
    · exact Option.noConfusion h
    · rename_i cap hst
      have hr := Option.some.inj h
      subst hr
      by_cases hc : cap.1 = false ∧ cap.2 = none ∧
          ({s with startupTimer := none} : CState).hasShownFallback = false
      · rw [if_pos hc]
        refine invP_flush _ hA ?_
        intro e he
        have he' : s.error = some e := he
        obtain ⟨hd, hne, hbt⟩ := hB e he'
        exact Or.inl ⟨hd, hne, hbt⟩
      · rw [if_neg hc]
        refine invP_flush _ hA ?_
        intro e he
        have he' : s.error = some e := he
        obtain ⟨hd, hne, hbt⟩ := hB e he'
        exact Or.inl ⟨hd, hne, hbt⟩
  | blankFire =>
    simp only [stepE] at h
    split at h
    · exact Option.noConfusion h
    · rename_i cap hbt0
      split at h
      · split at h
        · rename_i hcap hflag
          have hr := Option.some.inj h
          subst hr
          refine invP_flush _ ?_ (fun e he => Option.noConfusion he)
          have hf : s.hasAttemptedRestart = false := hflag
          rw [hf] at hA
          simp only [if_neg (by decide : ¬(false = true))] at hA
          have hz : s.restartsThisAttempt = 0 := Nat.le_zero.mp hA
          show s.restartsThisAttempt + 1 ≤ (1 : Nat)
          omega
        · have hr := Option.some.inj h
          subst hr
          refine invP_flush _ hA ?_
          intro e he
          have he' : s.error = some e := he
          obtain ⟨-, -, hbtn⟩ := hB e he'
          rw [hbt0] at hbtn
          exact Option.noConfusion hbtn
      · have hr := Option.some.inj h
        subst hr
        refine invP_flush _ hA ?_
        intro e he
        have he' : s.error = some e := he
        obtain ⟨hd, hne, -⟩ := hB e he'
        exact Or.inl ⟨hd, hne, rfl⟩
  | frameRendered w hgt ready =>
    simp only [stepE] at h
    split at h
    · split at h
      · have hr := Option.some.inj h
        subst hr
        refine invP_flush _ hA ?_
        intro e he
        have he' : s.error = some e := he
        obtain ⟨hd, hne, -⟩ := hB e he'
        exact Or.inl ⟨hd, hne, rfl⟩
      · have hr := Option.some.inj h
        subst hr
        exact ⟨hA, hB, hD⟩
    · exact Option.noConfusion h
  | visHidden =>
    simp only [stepE] at h
    have hr := Option.some.inj h
    subst hr
    exact ⟨hA, hB, hD⟩
  | visVisible =>
    simp only [stepE] at h
    split at h
    · rename_i hg
      rcases attemptStartCall_cases s with ⟨h1, heq⟩ | ⟨h1, h2, heq⟩ |
          ⟨h1, h2, h3, heq⟩ | ⟨h1, h2, h3, heq⟩
      · exact absurd h1 (by rw [hg.2.2.2]; exact Bool.false_ne_true)
      · rw [heq] at h
        have hr := Option.some.inj h
        subst hr
        refine invP_flush _ hA ?_
        intro e he
        have he' : s.error = some e := he
        rw [hg.2.2.1] at he'
        exact Option.noConfusion he'
      · rw [heq] at h
        have hr := Option.some.inj h
        subst hr
        refine invP_flush _ hA ?_
        intro e he
        have he' : s.error = some e := he
        rw [hg.2.2.1] at he'
        exact Option.noConfusion he'
      · rw [heq] at h
        have hr := Option.some.inj h
        subst hr
        refine invP_flush _ ?_ (fun e he => Option.noConfusion he)
        show (0 : Nat) ≤ _
        simp
    · have hr := Option.some.inj h
      subst hr
      exact ⟨hA, hB, hD⟩
  | tapFallback =>
    simp only [stepE] at h
    split at h
    · rename_i hg
      obtain ⟨herr0, -⟩ := view_fallback_clean s hg.1
      rcases attemptStartCall_cases
          {s with showFallback := false, hasShownFallback := false, isStarting := false,
                  hasAttemptedRestart := false, restartsThisAttempt := 0,
                  isVideoRendering := false} with ⟨h1, heq⟩ | ⟨h1, h2, heq⟩ |
          ⟨h1, h2, h3, heq⟩ | ⟨h1, h2, h3, heq⟩
      · exact Bool.noConfusion (show false = true from h1)
      · rw [heq] at h
        have hr := Option.some.inj h
        subst hr
        refine invP_flush _ ?_ ?_
        · show (0 : Nat) ≤ _
          simp
        · intro e he
          have he' : s.error = some e := he
          rw [herr0] at he'
          exact Option.noConfusion he'
      · rw [heq] at h
        have hr := Option.some.inj h
        subst hr
        refine invP_flush _ ?_ ?_
        · show (0 : Nat) ≤ _
          simp
        · intro e he
          have he' : s.error = some e := he
          rw [herr0] at he'
          exact Option.noConfusion he'
      · rw [heq] at h
        have hr := Option.some.inj h
        subst hr
        refine invP_flush _ ?_ (fun e he => Option.noConfusion he)
        show (0 : Nat) ≤ _
        simp
    · exact Option.noConfusion h
  | tapRetry =>
    simp only [stepE] at h
    split at h
    · have hr := Option.some.inj h
      subst hr
      refine invP_flush _ ?_ (fun e he => Option.noConfusion he)
      show (0 : Nat) ≤ _
      simp
    · exact Option.noConfusion h
  | permChange ps =>
    simp only [stepE] at h
    have hr := Option.some.inj h
    subst hr
    refine invP_flush _ hA ?_
    intro e he
    have he' : s.error = some e := he
    by_cases hps : ps = s.permissionState
    · subst hps
      obtain ⟨hd, hne, hbt⟩ := hB e he'
      exact Or.inl ⟨hd, hne, hbt⟩
    · refine Or.inr ?_
      intro hcc
      have hcc' : s.eff5Prev = some (s.error, ps) := hcc
      rw [hD] at hcc'
      exact hps (congrArg Prod.snd (Option.some.inj hcc')).symm

/-- The mounted initial state satisfies the invariant. -/
theorem invP_init : InvP initMounted := by
  refine ⟨by decide, ?_, rfl⟩
  intro e he
  exact Option.noConfusion he

/-- Running any event list from an invariant state ends in an invariant
state. -/
theorem invP_run : ∀ (evs : List Ev) (s0 s1 : CState),
    InvP s0 → run s0 evs = some s1 → InvP s1 := by
  intro evs
  induction evs with
  | nil =>
    intro s0 s1 h0 hr
    have := Option.some.inj hr
    subst this
    exact h0
  | cons ev rest ih =>
    intro s0 s1 h0 hr
    simp only [run] at hr
    split at hr
    · exact Option.noConfusion hr
    · rename_i r hstep
      exact ih r.1 s1 (invP_step s0 ev r h0 hstep) hr

/-- A state showing a fixed non-preflight message renders the error view
with its Retry control. -/
theorem view_errorRetry_of_msg (t : CState) (msg : String)
    (hsup : t.isSupported ≠ some false)
    (hufe : t.userFriendlyError = msg)
    (hns : strContains msg "not supported" = false)
    (hh : strContains msg "HTTPS" = false)
    (hne : msg ≠ "") :
    view t = View.errorRetry := by
  unfold view
  rw [hufe]
  have c1 : ¬(t.isSupported = some false ∨ (msg ≠ "" ∧ strContains msg "not supported" = true)) := by
    rintro (hx | ⟨-, hx⟩)
    · exact hsup hx
    · rw [hns] at hx
      exact Bool.noConfusion hx
  have c2 : ¬(msg ≠ "" ∧ strContains msg "HTTPS" = true) := by
    rintro ⟨-, hx⟩
    rw [hh] at hx
    exact Bool.noConfusion hx
  have c3 : t.error ≠ none ∨ msg ≠ "" := Or.inr hne
  rw [if_neg c1, if_neg c2, if_pos c3]

/-- Projection corollaries of `flushOnce_untouched`, for direct rewriting. -/
theorem flushOnce_showFallback (s : CState) :
    (flushOnce s).showFallback = s.showFallback := (flushOnce_untouched s).1

/-- The render-and-effects pass keeps the restart flag. -/
theorem flushOnce_flag (s : CState) :
    (flushOnce s).hasAttemptedRestart = s.hasAttemptedRestart :=
  (flushOnce_untouched s).2.2.2.2.1

/-- The render-and-effects pass keeps the active flag. -/
theorem flushOnce_isActive (s : CState) :
    (flushOnce s).isActive = s.isActive := (flushOnce_untouched s).2.2.2.2.2.1

/-- The render-and-effects pass keeps the error value. -/
theorem flushOnce_error (s : CState) :
    (flushOnce s).error = s.error := (flushOnce_untouched s).2.2.2.2.2.2.1

/-- The render-and-effects pass keeps the support flag. -/
theorem flushOnce_isSupported (s : CState) :
    (flushOnce s).isSupported = s.isSupported :=
  (flushOnce_untouched s).2.2.2.2.2.2.2.2.1

/-- The render-and-effects pass keeps the outstanding-call list. -/
theorem flushOnce_pending (s : CState) :
    (flushOnce s).pending = s.pending := (flushOnce_untouched s).2.2.2.2.2.2.2.2.2.1

/-- C1: for every acquisition attempt the blank-preview automatic restart
fires at most once.  (a) In every reachable state the number of automatic
restarts issued since the last fresh attempt is at most one.  (b) The first
blank detection with no frame observed and the restart flag clear issues
exactly one restart and sets the flag.  (c) A second blank detection within
the same attempt issues no restart and surfaces the blank-preview error
view.  (d) Every event that issues a fresh acquisition attempt (mount-style
start or user retry) resets the restart flag to false. -/
theorem c1_restart_bound :
    (∀ (evs : List Ev) (s : CState), run initMounted evs = some s →
        s.restartsThisAttempt ≤ 1)
    ∧ (∀ (s : CState) (r : CState × List PendKind),
        s.blankTimer = some (false, true) → s.hasAttemptedRestart = false →
        stepE s Ev.blankFire = some r →
        r.2 = [PendKind.blankCont] ∧ r.1.hasAttemptedRestart = true)
    ∧ (∀ (s : CState) (r : CState × List PendKind),
        s.blankTimer = some (false, true) → s.hasAttemptedRestart = true →
        s.error = none → s.eff5Prev = some (none, s.permissionState) →
        s.isSupported ≠ some false →
        stepE s Ev.blankFire = some r →
        r.2 = [] ∧ r.1.userFriendlyError = blankPreviewMsg ∧
          view r.1 = View.errorRetry)
    ∧ (∀ (s : CState) (ev : Ev) (r : CState × List PendKind),
        stepE s ev = some r →
        (PendKind.startCont ∈ r.2 ∨ PendKind.retryCont ∈ r.2) →
        r.1.hasAttemptedRestart = false) := by
  refine ⟨?_, ?_, ?_, ?_⟩
  · intro evs s hr
    have hi := invP_run evs initMounted s invP_init hr
    have h1 := hi.1
    split at h1
    · exact h1
    · exact Nat.le_trans h1 (by decide)
  · intro s r hbt hflag h
    simp only [stepE] at h
    split at h
    · exact Option.noConfusion h
    · rename_i cap hbt0
      have hcap : cap = (false, true) := Option.some.inj (hbt0.symm.trans hbt)
      split at h
      · have hr := Option.some.inj h
        subst hr
        exact ⟨rfl, (flushOnce_flag _).trans rfl⟩
      · rename_i hc
        exact absurd (by rw [hcap]; exact ⟨rfl, rfl⟩) hc
  · intro s r hbt hflag herr hprev hsup h
    simp only [stepE] at h
    split at h
    · exact Option.noConfusion h
    · rename_i cap hbt0
      have hcap : cap = (false, true) := Option.some.inj (hbt0.symm.trans hbt)
      split at h
      · have hnf : ¬(s.hasAttemptedRestart = false) := by
          intro hx
          rw [hflag] at hx
          exact Bool.noConfusion hx
        rw [if_neg hnf] at h
        have hr := Option.some.inj h
        subst hr
        refine ⟨rfl, ?_, ?_⟩
        · refine Eq.trans (flushOnce_ufe_of_error_none _ ?_) rfl
          exact herr
        · refine view_errorRetry_of_msg _ blankPreviewMsg ?_ ?_ (by decide) (by decide)
            (by decide)
          · rw [flushOnce_isSupported]
            exact hsup
          · refine Eq.trans (flushOnce_ufe_of_error_none _ ?_) rfl
            exact herr
      · rename_i hc
        exact absurd (by rw [hcap]; exact ⟨rfl, rfl⟩) hc
  · intro s ev r h hmem
    cases ev with
    | resolve i success err =>
      simp only [stepE] at h
      split at h
      · exact Option.noConfusion h
      · have hr := Option.some.inj h
        subst hr
        rcases hmem with hm | hm <;> simp at hm
    | startupFire =>
      simp only [stepE] at h
      split at h
      · exact Option.noConfusion h
      · have hr := Option.some.inj h
        subst hr
        rcases hmem with hm | hm <;> simp at hm
    | blankFire =>
      simp only [stepE] at h
      split at h
      · exact Option.noConfusion h
      · split at h
        · split at h
          · have hr := Option.some.inj h
            subst hr
            rcases hmem with hm | hm <;> simp at hm
          · have hr := Option.some.inj h
            subst hr
            rcases hmem with hm | hm <;> simp at hm
        · have hr := Option.some.inj h
          subst hr
          rcases hmem with hm | hm <;> simp at hm
    | frameRendered w hgt ready =>
      simp only [stepE] at h
      split at h
      · split at h <;>
          (have hr := Option.some.inj h
           subst hr
           rcases hmem with hm | hm <;> simp at hm)
      · exact Option.noConfusion h
    | visHidden =>
      simp only [stepE] at h
      have hr := Option.some.inj h
      subst hr
      rcases hmem with hm | hm <;> simp at hm
    | visVisible =>
      simp only [stepE] at h
      split at h
      · rcases attemptStartCall_cases s with ⟨h1, heq⟩ | ⟨h1, h2, heq⟩ |
            ⟨h1, h2, h3, heq⟩ | ⟨h1, h2, h3, heq⟩ <;> rw [heq] at h <;>
          (have hr := Option.some.inj h
           subst hr)
        · rcases hmem with hm | hm <;> simp at hm
        · rcases hmem with hm | hm <;> simp at hm
        · rcases hmem with hm | hm <;> simp at hm
        · exact (flushOnce_flag _).trans rfl
      · have hr := Option.some.inj h
        subst hr
        rcases hmem with hm | hm <;> simp at hm
    | tapFallback =>
      simp only [stepE] at h
      split at h
      · rcases attemptStartCall_cases
            {s with showFallback := false, hasShownFallback := false, isStarting := false,
                    hasAttemptedRestart := false, restartsThisAttempt := 0,
                    isVideoRendering := false} with ⟨h1, heq⟩ | ⟨h1, h2, heq⟩ |
            ⟨h1, h2, h3, heq⟩ | ⟨h1, h2, h3, heq⟩ <;> rw [heq] at h <;>
          (have hr := Option.some.inj h
           subst hr)
        · exact Bool.noConfusion (show false = true from h1)
        · exact (flushOnce_flag _).trans rfl
        · exact (flushOnce_flag _).trans rfl
        · exact (flushOnce_flag _).trans rfl
      · exact Option.noConfusion h
    | tapRetry =>
      simp only [stepE] at h
      split at h
      · have hr := Option.some.inj h
        subst hr
        exact (flushOnce_flag _).trans rfl
      · exact Option.noConfusion h
    | permChange ps =>
      simp only [stepE] at h
      have hr := Option.some.inj h
      subst hr
      rcases hmem with hm | hm <;> simp at hm

/-- Mounted state with the blank watchdog armed and the restart not yet
attempted, used as a concrete input below. -/
def sBlankArmed : CState :=
  {initMounted with blankTimer := some (false, true)}

/-- Mounted state with the blank watchdog armed after the one automatic
restart was already attempted. -/
def sBlankSecond : CState :=
  {sBlankArmed with hasAttemptedRestart := true}

/-- Concrete error state reached when the initial acquisition rejects. -/
def sAfterFail : CState :=
  (run initMounted [Ev.resolve 0 false ⟨ErrType.unknownType, "boom"⟩]).getD initMounted

/-- Witness for `c1_restart_bound`: the bound holds at the mounted state, a
first blank fire on an armed timer issues the single restart, a second blank
fire surfaces the blank-preview message, and a user retry resets the flag. -/
theorem c1_restart_bound_witness :
    initMounted.restartsThisAttempt ≤ 1
    ∧ ((stepE sBlankArmed Ev.blankFire).getD (initMounted, [])).2 = [PendKind.blankCont]
    ∧ ((stepE sBlankSecond Ev.blankFire).getD
        (initMounted, [])).1.userFriendlyError = blankPreviewMsg
    ∧ ((stepE sAfterFail Ev.tapRetry).getD
        (initMounted, [])).1.hasAttemptedRestart = false := by
  refine ⟨?_, ?_, ?_, ?_⟩
  · exact c1_restart_bound.1 [] initMounted rfl
  · exact (c1_restart_bound.2.1 sBlankArmed
      ((stepE sBlankArmed Ev.blankFire).getD (initMounted, [])) rfl rfl rfl).1
  · exact (c1_restart_bound.2.2.1 sBlankSecond
      ((stepE sBlankSecond Ev.blankFire).getD (initMounted, []))
      rfl rfl rfl rfl (by decide) rfl).2.1
  · exact c1_restart_bound.2.2.2 sAfterFail Ev.tapRetry
      ((stepE sAfterFail Ev.tapRetry).getD (initMounted, []))
      rfl (Or.inr (by decide))

/-- C2 fails on the code (the claim itself is the intended behaviour): after
a rejected initial acquisition and a user retry, the startup watchdog armed
during the retry gap is not disarmed when the visibility resume starts a
fresh attempt (first conjunct: the timer is still armed with the new call in
flight), and when that stale timer fires its callback re-checks only the
fallback-shown ref — the captured active/error checks are trivially true —
so it forces the Fallback view in the middle of the in-flight attempt
(second conjunct), instead of being a no-op.  The third conjunct shows the
other half of the violation: on the initial attempt the startup watchdog is
armed zero times, not exactly once. -/
theorem c2_stale_timer_fires_mid_attempt :
    ((run initMounted [Ev.resolve 0 false ⟨ErrType.unknownType, "boom"⟩,
        Ev.tapRetry, Ev.visHidden, Ev.visVisible]).map
      (fun s => (s.startupTimer.isSome, s.isStarting, s.pending.length))) =
        some (true, true, 2)
    ∧ ((run initMounted [Ev.resolve 0 false ⟨ErrType.unknownType, "boom"⟩,
        Ev.tapRetry, Ev.visHidden, Ev.visVisible, Ev.startupFire]).map
      (fun s => (s.showFallback, s.pending.length, view s))) =
        some (true, 2, View.fallback)
    ∧ initMounted.startupTimer = none := ⟨by decide, by decide, rfl⟩

/-- C3 counterexample: the single-flight invariant fails.  After the initial
acquisition rejects, the user taps Retry — `handleRetry` issues `retry()`
without setting the in-flight guard — and a hidden-to-visible transition
then passes the visibility guard and issues a second concurrent acquisition:
the state reaches two outstanding calls. -/
theorem c3_counterexample :
    (run initMounted [Ev.resolve 0 false ⟨ErrType.unknownType, "boom"⟩,
        Ev.tapRetry, Ev.visHidden, Ev.visVisible]).map
      (fun s => s.pending.length) = some 2 := by decide

/-- C3 amended: the guard protects exactly the `attemptStart` path — while
the in-flight guard is set, `attemptStart` itself and the visibility-resume
trigger are no-ops — but the retry and manual-start controls bypass it, so
the two-outstanding-calls state of the counterexample is reachable. -/
theorem c3_single_flight_amended : ∀ s : CState,
    (s.isStarting = true → attemptStartCall s = (s, []))
    ∧ (s.isStarting = true → stepE s Ev.visVisible = some (s, [])) := by
  intro s
  constructor
  · intro hst
    unfold attemptStartCall
    rw [if_pos hst]
  · intro hst
    simp only [stepE]
    have hng : ¬(s.hasAttemptedStart = true ∧ s.isActive = false ∧ s.error = none ∧
        s.isStarting = false) := by
      rintro ⟨-, -, -, hx⟩
      rw [hst] at hx
      exact Bool.noConfusion hx
    rw [if_neg hng]

/-- Witness for `c3_single_flight_amended` at the mounted state, whose
initial acquisition is still in flight. -/
theorem c3_single_flight_amended_witness :
    attemptStartCall initMounted = (initMounted, [])
    ∧ stepE initMounted Ev.visVisible = some (initMounted, []) :=
  ⟨(c3_single_flight_amended initMounted).1 rfl,
   (c3_single_flight_amended initMounted).2 rfl⟩

/-- C4 fails on the code (the claim itself is the intended behaviour): on
mount the acquisition call is issued with the in-flight guard set, and the
startup-watchdog arming condition requires that guard to be clear, so no
watchdog is armed for the initial attempt; its arming effect re-runs only
when the active flag or the error change, which never happens while the call
hangs.  With no timer armed, no timer can fire, and the session shows the
Loading view indefinitely instead of reaching Fallback after 3000 ms. -/
theorem c4_startup_liveness_bug :
    initMounted.isStarting = true
    ∧ initMounted.startupTimer = none
    ∧ initMounted.blankTimer = none
    ∧ view initMounted = View.loading
    ∧ stepE initMounted Ev.startupFire = none
    ∧ stepE initMounted Ev.blankFire = none
    ∧ initMounted.pending = [PendKind.startCont] :=
  ⟨rfl, rfl, rfl, rfl, rfl, rfl, rfl⟩

/-- A render-and-effects pass on a state with no error keeps the in-flight
guard. -/
theorem flushOnce_isStarting_of_error_none (m : CState) (he : m.error = none) :
    (flushOnce m).isStarting = m.isStarting := by
  obtain ⟨-, -, -, -, hst2, -, -, -, -, -, herr2, -, -, -, -, -, -, -⟩ := runEff2_untouched m
  obtain ⟨-, -, -, -, hst3, -, -, -, -, herr3, -, -, -, -, -, -, -⟩ :=
    runEff3_untouched (runEff2 m)
  have herr : (runEff3 (runEff2 m)).error = m.error := herr3.trans herr2
  have hst : (runEff3 (runEff2 m)).isStarting = m.isStarting := hst3.trans hst2
  rcases runEff5_cases (runEff3 (runEff2 m)) with ⟨-, heq⟩ | ⟨-, heq⟩ | ⟨e2, hsome, -⟩
  · show (runEff5 (runEff3 (runEff2 m))).isStarting = m.isStarting
    rw [heq]; exact hst
  · show (runEff5 (runEff3 (runEff2 m))).isStarting = m.isStarting
    rw [heq]; exact hst
  · rw [herr, he] at hsome
    cases hsome

/-- A state with the fallback flag set, no error, no message and support
present renders the fallback view. -/
theorem view_fallback_of_flags (t : CState) (hsf : t.showFallback = true)
    (herr : t.error = none) (hufe : t.userFriendlyError = "")
    (hsup : t.isSupported ≠ some false) : view t = View.fallback := by
  unfold view
  rw [hufe, herr]
  have c1 : ¬(t.isSupported = some false ∨
      (("" : String) ≠ "" ∧ strContains "" "not supported" = true)) := by
    rintro (hx | ⟨hx, -⟩)
    · exact hsup hx
    · exact hx rfl
  have c2 : ¬(("" : String) ≠ "" ∧ strContains "" "HTTPS" = true) := by
    rintro ⟨hx, -⟩
    exact hx rfl
  have c3 : ¬((none : Option CameraError) ≠ none ∨ ("" : String) ≠ "") := by
    rintro (hx | hx) <;> exact hx rfl
  have c4 : t.showFallback = true ∨
      (t.hasAttemptedStart = true ∧ t.isActive = false ∧
       (none : Option CameraError) = none ∧ t.isLoading = false ∧
       t.isStarting = false ∧ t.hasShownFallback = true) := Or.inl hsf
  rw [if_neg c1, if_neg c2, if_neg c3, if_pos c4]

/-- C5 counterexample: after the startup watchdog has fired and moved the
session to Fallback while a retry call is outstanding, a late successful
resolution makes the camera active — but the session still renders the
Fallback view (`showFallback` is never cleared by the success continuation),
so there is no silent Fallback-to-Active promotion. -/
theorem c5_counterexample :
    (run initMounted [Ev.resolve 0 false ⟨ErrType.unknownType, "boom"⟩, Ev.tapRetry,
        Ev.startupFire, Ev.resolve 0 true ⟨ErrType.unknownType, "boom"⟩]).map
      (fun s => (s.isActive, view s, s.pending.length)) =
      some (true, View.fallback, 0) := by decide

/-- C5 amended: the outstanding call is indeed not cancelled — it stays in
`pending` until it resolves — and a late success does make the camera
active; but the session keeps rendering the Fallback view, so the user must
still activate the manual-start control. -/
theorem c5_late_success_amended :
    ∀ (s : CState) (e : CameraError) (k : PendKind) (rest : List PendKind),
    s.pending = k :: rest →
    s.showFallback = true → s.error = none → s.userFriendlyError = "" →
    s.isSupported ≠ some false →
    ∃ s2, stepE s (Ev.resolve 0 true e) = some (s2, [])
      ∧ s2.isActive = true ∧ view s2 = View.fallback ∧ s2.pending = rest := by
  intro s e k rest hp hsf herr hufe hsup
  cases k <;>
    (simp only [stepE, hp, List.get?_cons_zero]
     refine ⟨_, rfl, ?_, ?_, ?_⟩) <;> try rfl
  case startCont.refine_1 => exact (flushOnce_isActive _).trans rfl
  case startCont.refine_3 =>
    exact (flushOnce_pending _).trans rfl
  case retryCont.refine_1 => exact (flushOnce_isActive _).trans rfl
  case retryCont.refine_3 =>
    exact (flushOnce_pending _).trans rfl
  case blankCont.refine_1 => exact (flushOnce_isActive _).trans rfl
  case blankCont.refine_3 =>
    exact (flushOnce_pending _).trans rfl
  case startCont.refine_2 =>
    refine view_fallback_of_flags _ ?_ ?_ ?_ ?_
    · exact (flushOnce_showFallback _).trans hsf
    · exact (flushOnce_error _).trans rfl
    · refine Eq.trans (flushOnce_ufe_of_error_none _ ?_) hufe
      rfl
    · rw [flushOnce_isSupported]
      exact hsup
  case retryCont.refine_2 =>
    refine view_fallback_of_flags _ ?_ ?_ ?_ ?_
    · exact (flushOnce_showFallback _).trans hsf
    · exact (flushOnce_error _).trans rfl
    · refine Eq.trans (flushOnce_ufe_of_error_none _ ?_) hufe
      rfl
    · rw [flushOnce_isSupported]
      exact hsup
  case blankCont.refine_2 =>
    refine view_fallback_of_flags _ ?_ ?_ ?_ ?_
    · exact (flushOnce_showFallback _).trans hsf
    · exact (flushOnce_error _).trans rfl
    · refine Eq.trans (flushOnce_ufe_of_error_none _ ?_) hufe
      rfl
    · rw [flushOnce_isSupported]
      exact hsup

/-- Witness input for the amended C5 statement: the reachable state in which
the startup watchdog has fired (Fallback shown) while the retry call is
still outstanding. -/
def sFallbackRetry : CState :=
  (run initMounted [Ev.resolve 0 false ⟨ErrType.unknownType, "boom"⟩, Ev.tapRetry,
      Ev.startupFire]).getD initMounted

/-- Witness for `c5_late_success_amended` at the concrete Fallback state
with the retry call outstanding. -/
theorem c5_late_success_amended_witness :
    ∃ s2, stepE sFallbackRetry (Ev.resolve 0 true ⟨ErrType.unknownType, "boom"⟩)
        = some (s2, [])
      ∧ s2.isActive = true ∧ view s2 = View.fallback ∧ s2.pending = [] :=
  c5_late_success_amended sFallbackRetry ⟨ErrType.unknownType, "boom"⟩
    PendKind.retryCont [] (by decide) (by decide) (by decide) (by decide) (by decide)

/-- C6 counterexample: a hidden-to-visible transition while no stream is
active and no error is set, but with the initial acquisition still in
flight, triggers no automatic resume at all — the state does not change and
no acquisition is issued — refuting that exactly one resume fires under
those two conditions alone. -/
theorem c6_counterexample :
    initMounted.isActive = false
    ∧ initMounted.error = none
    ∧ stepE initMounted Ev.visHidden = some (initMounted, [])
    ∧ stepE initMounted Ev.visVisible = some (initMounted, []) :=
  ⟨rfl, rfl, rfl, rfl⟩

/-- Guarded no-op of the visibility trigger while an acquisition is in
flight (shared by the amended C3 and C6 statements). -/
theorem c3_lemma_guard (s : CState) (hst : s.isStarting = true) :
    stepE s Ev.visVisible = some (s, []) := by
  simp only [stepE]
  have hng : ¬(s.hasAttemptedStart = true ∧ s.isActive = false ∧ s.error = none ∧
      s.isStarting = false) := by
    rintro ⟨-, -, -, hx⟩
    rw [hst] at hx
    exact Bool.noConfusion hx
  rw [if_neg hng]

/-- C6 amended: when the page becomes visible with no stream active, no
error set and no acquisition already in flight, exactly one automatic
resume (one fresh acquisition) fires; if a stream is active, an error is
set, or an acquisition is in flight, the visibility event triggers nothing,
and hidden events always trigger nothing. -/
theorem c6_visibility_amended : ∀ s : CState,
    (s.hasAttemptedStart = true → s.isActive = false → s.error = none →
      s.isStarting = false → s.secureContext = true → s.apiAvailable = true →
      (stepE s Ev.visVisible).map (fun r => r.2) = some [PendKind.startCont])
    ∧ ((s.isActive = true ∨ s.error ≠ none) → stepE s Ev.visVisible = some (s, []))
    ∧ stepE s Ev.visHidden = some (s, [])
    ∧ (s.isStarting = true → stepE s Ev.visVisible = some (s, [])) := by
  intro s
  refine ⟨?_, ?_, rfl, ?_⟩
  · intro h1 h2 h3 h4 h5 h6
    simp only [stepE]
    rw [if_pos ⟨h1, h2, h3, h4⟩]
    rcases attemptStartCall_cases s with ⟨ha, heq⟩ | ⟨-, hb, heq⟩ |
        ⟨-, -, hc, heq⟩ | ⟨-, -, -, heq⟩
    · rw [h4] at ha
      exact Bool.noConfusion ha
    · rw [h5] at hb
      exact Bool.noConfusion hb
    · rw [h6] at hc
      exact Bool.noConfusion hc
    · rw [heq]
      rfl
  · intro hd
    simp only [stepE]
    have hng : ¬(s.hasAttemptedStart = true ∧ s.isActive = false ∧ s.error = none ∧
        s.isStarting = false) := by
      rintro ⟨-, hx, hy, -⟩
      rcases hd with hd | hd
      · rw [hd] at hx
        exact Bool.noConfusion hx
      · exact hd hy
    rw [if_neg hng]
  · exact c3_lemma_guard s

/-- Witness for `c6_visibility_amended`: one resume fires from the concrete
Fallback-with-outstanding-retry state, nothing fires while a stream is
active, and nothing fires while the initial acquisition is in flight. -/
theorem c6_visibility_amended_witness :
    (stepE sFallbackRetry Ev.visVisible).map (fun r => r.2) = some [PendKind.startCont]
    ∧ stepE {initMounted with isActive := true} Ev.visVisible
        = some ({initMounted with isActive := true}, [])
    ∧ stepE initMounted Ev.visVisible = some (initMounted, []) :=
  ⟨(c6_visibility_amended sFallbackRetry).1 (by decide) (by decide) (by decide)
      (by decide) (by decide) (by decide),
   (c6_visibility_amended {initMounted with isActive := true}).2.1 (Or.inl rfl),
   (c6_visibility_amended initMounted).2.2.2 rfl⟩

/-- C7: the classifier is a function of the raw failure and the permission
state; a permission-kind failure classifies to the blocked message exactly
when the oracle reports denied (that message directs to the browser
settings), to the denied message (which invites a retry) otherwise, and a
state displaying either message renders the error view with the Retry
control. -/
theorem c7_classifier : ∀ (msg : String) (ps : PermState) (s : CState),
    getUserFriendlyErrorMessage (some ⟨ErrType.permission, msg⟩) PermState.denied
      = blockedMsg
    ∧ (ps ≠ PermState.denied →
        getUserFriendlyErrorMessage (some ⟨ErrType.permission, msg⟩) ps = deniedMsg)
    ∧ strContains blockedMsg "browser settings" = true
    ∧ strContains deniedMsg "Retry" = true
    ∧ (s.isSupported ≠ some false →
        (s.userFriendlyError = blockedMsg ∨ s.userFriendlyError = deniedMsg) →
        view s = View.errorRetry) := by
  intro msg ps s
  refine ⟨rfl, ?_, by decide, by decide, ?_⟩
  · intro hps
    simp only [getUserFriendlyErrorMessage]
    rw [if_neg hps]
  · rintro hsup (hufe | hufe)
    · exact view_errorRetry_of_msg s blockedMsg hsup hufe (by decide) (by decide)
        (by decide)
    · exact view_errorRetry_of_msg s deniedMsg hsup hufe (by decide) (by decide)
        (by decide)

/-- Concrete state displaying the permission-blocked message, used as a
witness input. -/
def sBlockedShown : CState :=
  {sAfterFail with userFriendlyError := blockedMsg}

/-- Witness for `c7_classifier`: concrete classifications under denied and
prompt permission states, and the Retry view for the blocked message. -/
theorem c7_classifier_witness :
    getUserFriendlyErrorMessage (some ⟨ErrType.permission, "Permission denied"⟩)
        PermState.denied = blockedMsg
    ∧ getUserFriendlyErrorMessage (some ⟨ErrType.permission, "Permission denied"⟩)
        PermState.prompt = deniedMsg
    ∧ view sBlockedShown = View.errorRetry :=
  ⟨(c7_classifier "Permission denied" PermState.prompt sBlockedShown).1,
   (c7_classifier "Permission denied" PermState.prompt sBlockedShown).2.1 (by decide),
   (c7_classifier "Permission denied" PermState.prompt sBlockedShown).2.2.2.2
     (by decide) (Or.inl rfl)⟩

/-- C8 counterexample: for an unknown-kind failure whose message matches no
recognized signature, under a non-granted permission state, the session
displays a message that embeds the raw platform error string verbatim
("xyz glitch" between the fixed prefix and suffix), so a raw platform error
string does reach the user. -/
theorem c8_counterexample :
    (run initMounted [Ev.resolve 0 false ⟨ErrType.unknownType, "xyz glitch"⟩]).map
      (fun s => (view s, displayedError s)) =
      some (View.errorRetry,
        "Camera error: " ++ "xyz glitch" ++ ". Please tap Retry.") := by decide

/-- C8 amended: every reachable error state displays the classifier output
(or the fixed blank-preview message) — never the bare raw `error.message` —
and for every kind other than the unknown default fall-through the
classified message is one of four fixed strings that contain no raw
platform text; only the unknown-kind fall-through embeds the raw message. -/
theorem c8_amended :
    (∀ (evs : List Ev) (s : CState) (e : CameraError),
        run initMounted evs = some s → s.error = some e →
        displayedError s = s.userFriendlyError
        ∧ (s.userFriendlyError = getUserFriendlyErrorMessage (some e) s.permissionState
           ∨ s.userFriendlyError = blankPreviewMsg))
    ∧ (∀ (e : CameraError) (ps : PermState), e.type ≠ ErrType.unknownType →
        (getUserFriendlyErrorMessage (some e) ps = blockedMsg
         ∨ getUserFriendlyErrorMessage (some e) ps = deniedMsg
         ∨ getUserFriendlyErrorMessage (some e) ps = notSupportedMsg
         ∨ getUserFriendlyErrorMessage (some e) ps = notFoundMsg)) := by
  constructor
  · intro evs s e hr he
    have hi := invP_run evs initMounted s invP_init hr
    obtain ⟨hd, hne, -⟩ := hi.2.1 e he
    constructor
    · unfold displayedError
      rw [if_neg hne]
    · exact hd
  · intro e ps ht
    obtain ⟨t, m⟩ := e
    cases t
    case permission =>
      by_cases hps : ps = PermState.denied
      · left
        simp only [getUserFriendlyErrorMessage]
        rw [if_pos hps]
      · right; left
        simp only [getUserFriendlyErrorMessage]
        rw [if_neg hps]
    case notSupported => right; right; left; rfl
    case notFound => right; right; right; rfl
    case unknownType => exact absurd rfl ht

/-- Witness for `c8_amended` at the concrete reachable error state and a
concrete not-found failure. -/
theorem c8_amended_witness :
    displayedError sAfterFail = sAfterFail.userFriendlyError
    ∧ getUserFriendlyErrorMessage (some ⟨ErrType.notFound, "NotFoundError"⟩)
        PermState.prompt = notFoundMsg := by
  constructor
  · exact (c8_amended.1 [Ev.resolve 0 false ⟨ErrType.unknownType, "boom"⟩] sAfterFail
      ⟨ErrType.unknownType, "boom"⟩ (by decide) (by decide)).1
  · have h := c8_amended.2 ⟨ErrType.notFound, "NotFoundError"⟩ PermState.prompt (by decide)
    rcases h with h | h | h | h
    · exact absurd h (by decide)
    · exact absurd h (by decide)
    · exact absurd h (by decide)
    · exact h

/-- C9: the speech rate starts inside `[0.5, 2.0]`, `setRate` clamps every
input into that interval, and each speed-up / slow-down activation moves the
rate by `0.25` clamped at the bounds, staying inside the interval. -/
theorem c9_rate_clamp :
    ((1 : ℚ)/2 ≤ initialRate ∧ initialRate ≤ 2)
    ∧ (∀ x : ℚ, 1/2 ≤ setRate x ∧ setRate x ≤ 2)
    ∧ (∀ r : ℚ, 1/2 ≤ r → r ≤ 2 →
        (1/2 ≤ handleIncreaseRate r ∧ handleIncreaseRate r ≤ 2
         ∧ (r + 1/4 ≤ 2 → handleIncreaseRate r = r + 1/4)
         ∧ (2 < r + 1/4 → handleIncreaseRate r = 2)
         ∧ 1/2 ≤ handleDecreaseRate r ∧ handleDecreaseRate r ≤ 2
         ∧ (1/2 ≤ r - 1/4 → handleDecreaseRate r = r - 1/4)
         ∧ (r - 1/4 < 1/2 → handleDecreaseRate r = 1/2))) := by
  refine ⟨⟨by norm_num [initialRate], by norm_num [initialRate]⟩, ?_, ?_⟩
  · intro x
    unfold setRate
    exact ⟨le_max_left _ _, max_le (by norm_num) (min_le_left _ _)⟩
  · intro r h1 h2
    unfold handleIncreaseRate handleDecreaseRate setRate
    refine ⟨le_max_left _ _, max_le (by norm_num) (min_le_left _ _), ?_, ?_,
      le_max_left _ _, max_le (by norm_num) (min_le_left _ _), ?_, ?_⟩
    · intro h3
      rw [min_eq_left h3, min_eq_right h3, max_eq_right (by linarith)]
    · intro h3
      rw [min_eq_right (le_of_lt h3), min_self, max_eq_right (by norm_num)]
    · intro h3
      rw [max_eq_left h3, min_eq_right (by linarith), max_eq_right h3]
    · intro h3
      rw [max_eq_right (le_of_lt h3), min_eq_right (by norm_num), max_self]

/-- Witness for `c9_rate_clamp` at concrete rates. -/
theorem c9_rate_clamp_witness :
    (1 : ℚ)/2 ≤ setRate 5 ∧ setRate 5 ≤ 2
    ∧ handleIncreaseRate 1 = 1 + 1/4 ∧ handleDecreaseRate 1 = 1 - 1/4 :=
  ⟨(c9_rate_clamp.2.1 5).1, (c9_rate_clamp.2.1 5).2,
   (c9_rate_clamp.2.2 1 (by norm_num) (by norm_num)).2.2.1 (by norm_num),
   (c9_rate_clamp.2.2 1 (by norm_num) (by norm_num)).2.2.2.2.2.2.1 (by norm_num)⟩

/-- C10: the capture callback can only run when the camera is active, no
processing is in progress and the video is rendering frames (and a photo
was produced); under any disqualifying condition the tap produces no calls
at all, and the keyboard path is gated identically. -/
theorem c10_capture_gate :
    ∀ (a p v : Bool) (photo : Option ImageFile) (key : String),
      (CapAct.onCaptureCall ∈ handleTapToCapture a p v photo →
        a = true ∧ p = false ∧ v = true ∧ photo ≠ none)
      ∧ ((a = false ∨ p = true ∨ v = false) → handleTapToCapture a p v photo = [])
      ∧ (CapAct.capturePhotoCall ∈ handleTapToCapture a p v photo →
        a = true ∧ p = false ∧ v = true)
      ∧ (CapAct.onCaptureCall ∈ handleKeyDown key a p v photo →
        a = true ∧ p = false ∧ v = true ∧ photo ≠ none) := by
  intro a p v photo key
  have hmain : CapAct.onCaptureCall ∈ handleTapToCapture a p v photo →
      a = true ∧ p = false ∧ v = true ∧ photo ≠ none := by
    intro hm
    unfold handleTapToCapture at hm
    split at hm
    · simp at hm
    · rename_i hc
      simp only [not_or, Bool.not_eq_false, Bool.not_eq_true] at hc
      obtain ⟨ha, hp, hv⟩ := hc
      refine ⟨ha, hp, hv, ?_⟩
      cases photo with
      | some _ => simp
      | none => simp at hm
  refine ⟨hmain, ?_, ?_, ?_⟩
  · intro hd
    unfold handleTapToCapture
    rw [if_pos hd]
  · intro hm
    unfold handleTapToCapture at hm
    split at hm
    · simp at hm
    · rename_i hc
      simp only [not_or, Bool.not_eq_false, Bool.not_eq_true] at hc
      exact ⟨hc.1, hc.2.1, hc.2.2⟩
  · intro hm
    unfold handleKeyDown at hm
    split at hm
    · exact hmain hm
    · simp at hm

/-- Witness for `c10_capture_gate`: a disqualified tap is a no-op and a
qualified tap that produced a photo implies all gating conditions. -/
theorem c10_capture_gate_witness :
    handleTapToCapture false false true (some [1]) = []
    ∧ (true = true ∧ false = false ∧ true = true ∧
        (some [1] : Option ImageFile) ≠ none) :=
  ⟨(c10_capture_gate false false true (some [1]) "Enter").2.1 (Or.inl rfl),
   (c10_capture_gate true false true (some [1]) "Enter").1 (by decide)⟩
